import Mathlib

/-!
Shallow embedding of the `v_alloc` virtual-memory arena allocator.

Addresses and sizes are modelled as `Nat` (a null pointer is address `0`).
The platform memory provider (mmap / mprotect / madvise / munmap on POSIX,
VirtualAlloc / VirtualFree on Windows) is modelled by an `Env` oracle that
fixes the outcome of each OS call: the address returned by the reserve call,
the cached system page size, and the success of the commit / decommit /
release calls.  The allocator functions are translated line by line from
the C source.
-/

/-- Descriptor of one reserved virtual-memory range (C struct `AllocInfo`):
`base` is the start of the reserved range, `ptr` the bump cursor, `end_` the
exclusive end of the committed sub-range (`end` in C, a reserved word in Lean),
`reserved_size` the total reserved size and `page_size` the cached OS page
size. -/
structure AllocInfo where
  base : Nat
  ptr : Nat
  end_ : Nat
  reserved_size : Nat
  page_size : Nat
deriving Repr, DecidableEq

/-- Outcome oracle for the platform memory provider: `reserveAddr` is the
address the OS reserve call returns (`0` models `NULL` / `MAP_FAILED`),
`sysPageSize` the cached page size, and the three `Bool`s whether the
underlying OS commit / decommit / release calls succeed. -/
structure Env where
  reserveAddr : Nat
  sysPageSize : Nat
  commitOsOk : Bool
  decommitOsOk : Bool
  releaseOsOk : Bool
deriving Repr, DecidableEq

/-- C macro `V_ALLOC_ALIGNMENT` from `v_alloc.h`. -/
def V_ALLOC_ALIGNMENT : Nat := 16

/-- C macro `MAX_ARENA_CAPACITY` from `v_alloc.h` (1 GiB). -/
def MAX_ARENA_CAPACITY : Nat := 1024 * 1024 * 1024

/-- Modelled from the spec: the `ALIGN_UP` macro used by the source is not
present under `src/`; the spec describes it as rounding a size up to the next
multiple of the alignment ("Rounds `requestedBytes` up to the allocator's
alignment", "rounds the additional needed bytes up to page size").  For a
positive alignment `a` this is the least multiple of `a` that is `≥ n`; the
`a = 0` case never arises in the claims (it would require a zero page size). -/
def ALIGN_UP (n a : Nat) : Nat :=
  if a = 0 then n else (n + a - 1) / a * a

/-- Modelled from the spec: the `ALIGN_DOWN_PTR` macro used by the source is
not present under `src/`; the spec describes it as page-aligning an address
downward ("the decommit target address is page-aligned downward from
`committedEnd`").  For a positive alignment `a` this is the greatest multiple
of `a` that is `≤ p`. -/
def ALIGN_DOWN_PTR (p a : Nat) : Nat :=
  if a = 0 then p else p / a * a

/-- C `v_alloc_posix_commit`: shifts `addr` to the tail sub-range and calls
`mprotect`; `mprotect` returns `0` on success and `-1` on failure, and the
function returns `result ? true : false` — that is, `true` exactly when
`mprotect` FAILED (the source's inversion is preserved faithfully). -/
def v_alloc_posix_commit (env : Env) (addr total_size additional_bytes : Nat) : Bool :=
  let _addr := addr + total_size - additional_bytes
  let result : Int := if env.commitOsOk then 0 else -1
  if result ≠ 0 then true else false

/-- C `v_alloc_posix_decommit`: `madvise(MADV_DONTNEED)` followed by
`mprotect(PROT_NONE)`; returns `true` when both succeed, modelled by the
single oracle flag `decommitOsOk`. -/
def v_alloc_posix_decommit (env : Env) (addr extra_size : Nat) : Bool :=
  let _ := addr
  let _ := extra_size
  env.decommitOsOk

/-- C `v_alloc_posix_release`: `munmap(addr, size) == 0`. -/
def v_alloc_posix_release (env : Env) (addr size : Nat) : Bool :=
  let _ := addr
  let _ := size
  env.releaseOsOk

/-- C `v_alloc_reserve`: writes the OS reserve result into `base` (so a failed
reserve leaves `base = NULL` with the other fields untouched); on success
initializes `ptr = end = base`, records `reserved_size` and caches the page
size. -/
def v_alloc_reserve (env : Env) (alloc_info : AllocInfo) (reserve_size : Nat) :
    Bool × AllocInfo :=
  let base := env.reserveAddr
  if base = 0 then
    (false, { alloc_info with base := 0 })
  else
    (true,
      { base := base, ptr := base, end_ := base,
        reserved_size := reserve_size, page_size := env.sysPageSize })

/-- Shared tail of C `v_alloc_committ` (lines 440–454): page-aligns the growth,
checks the reservation guard against `ptr`, calls the platform commit and
compares the `bool` result with `-1` (the source's comparison, which can never
be true), then advances `end` and bumps the cursor.  `additional_bytes` is
already 16-aligned here. -/
def v_alloc_committ_grow (env : Env) (ai : AllocInfo) (additional_bytes : Nat) :
    Option Nat × AllocInfo :=
  let adjusted_additional_bytes := ALIGN_UP additional_bytes ai.page_size
  if ai.ptr + adjusted_additional_bytes > ai.base + ai.reserved_size then
    (none, ai)
  else
    let new_size := ai.end_ - ai.base + adjusted_additional_bytes
    let result : Int :=
      if v_alloc_posix_commit env ai.base new_size adjusted_additional_bytes then 1 else 0
    if result = -1 then
      (none, ai)
    else
      let ai2 := { ai with end_ := ai.base + new_size }
      (some ai2.ptr, { ai2 with ptr := ai2.ptr + additional_bytes })

/-- C `v_alloc_committ`: rejects a zero request, 16-aligns it, serves it from
the committed headroom when possible and otherwise grows (lazily reserving
`MAX_ARENA_CAPACITY` first when the descriptor was never reserved). -/
def v_alloc_committ (env : Env) (alloc_info : AllocInfo) (additional_bytes : Nat) :
    Option Nat × AllocInfo :=
  if additional_bytes = 0 then
    (none, alloc_info)
  else
    let additional_bytes := ALIGN_UP additional_bytes V_ALLOC_ALIGNMENT
    if additional_bytes > alloc_info.end_ - alloc_info.ptr then
      if alloc_info.base = 0 then
        let r := v_alloc_reserve env alloc_info MAX_ARENA_CAPACITY
        if r.1 then v_alloc_committ_grow env r.2 additional_bytes
        else (none, r.2)
      else
        v_alloc_committ_grow env alloc_info additional_bytes
    else
      (some alloc_info.ptr, { alloc_info with ptr := alloc_info.ptr + additional_bytes })

/-- C `v_alloc_reset`: rewinds the cursor to `base`. -/
def v_alloc_reset (alloc_info : AllocInfo) : AllocInfo :=
  { alloc_info with ptr := alloc_info.base }

/-- C `v_alloc_decommit`: page-aligns `extra_size` upward, fails when it
exceeds the committed size, page-aligns the target address downward from
`end`, calls the platform decommit and on success lowers `end`. -/
def v_alloc_decommit (env : Env) (alloc_info : AllocInfo) (extra_size : Nat) :
    Bool × AllocInfo :=
  if extra_size = 0 then
    (false, alloc_info)
  else
    let extra_size := ALIGN_UP extra_size alloc_info.page_size
    if extra_size > alloc_info.end_ - alloc_info.base then
      (false, alloc_info)
    else
      let decommit_start := ALIGN_DOWN_PTR (alloc_info.end_ - extra_size) alloc_info.page_size
      let result := v_alloc_posix_decommit env decommit_start extra_size
      if result then
        (result, { alloc_info with end_ := decommit_start })
      else
        (result, alloc_info)

/-- C `v_alloc_free`: fails on a never-reserved descriptor, otherwise releases
the whole reserved range.  It reads but never writes the descriptor. -/
def v_alloc_free (env : Env) (alloc_info : AllocInfo) : Bool × AllocInfo :=
  if alloc_info.base = 0 then
    (false, alloc_info)
  else
    (v_alloc_posix_release env alloc_info.base alloc_info.reserved_size, alloc_info)

/-- Offset of the `data` member of C struct `AllocHdr`: `sizeof(AllocInfo)`
(three pointers and two `size_t`, 40 bytes on a 64-bit platform) rounded up to
`_Alignas(V_ALLOC_ALIGNMENT)`, giving 48.  No claim depends on the exact
value. -/
def hdrDataOffset : Nat := 48

/-- C `v_alloc_hdr_from_data`: recovers the header address from the data
pointer by the fixed backward offset. -/
def v_alloc_hdr_from_data (data : Nat) : Nat :=
  data - hdrDataOffset

/-- Shared tail of C `v_alloc_resize` (lines 511–524): page-aligns the total
size, checks it against the reservation, calls the platform commit (with the
same never-true `-1` comparison as `v_alloc_committ`), then sets
`end = ptr = base + alignedSize` and returns `base`. -/
def v_alloc_resize_grow (env : Env) (ai : AllocInfo) (size_in_bytes : Nat) :
    Option Nat × AllocInfo :=
  let adjusted_size_in_bytes := ALIGN_UP size_in_bytes ai.page_size
  if adjusted_size_in_bytes + ai.base > ai.base + ai.reserved_size then
    (none, ai)
  else
    let additional_bytes := adjusted_size_in_bytes - (ai.end_ - ai.base)
    let result : Int :=
      if v_alloc_posix_commit env ai.base adjusted_size_in_bytes additional_bytes then 1 else 0
    if result = -1 then
      (none, ai)
    else
      let ai2 := { ai with end_ := ai.base + adjusted_size_in_bytes }
      let ai3 := { ai2 with ptr := ai2.end_ }
      (some ai3.base, ai3)

/-- C `v_alloc_resize`: a zero size frees the region and returns `NULL`; a
size within the committed range returns `base` unchanged; a larger size grows
in place (lazily reserving `MAX_ARENA_CAPACITY` when never reserved). -/
def v_alloc_resize (env : Env) (alloc_info : AllocInfo) (size_in_bytes : Nat) :
    Option Nat × AllocInfo :=
  if size_in_bytes = 0 then
    (none, (v_alloc_free env alloc_info).2)
  else
    if size_in_bytes > alloc_info.end_ - alloc_info.base then
      if alloc_info.base = 0 then
        let r := v_alloc_reserve env alloc_info MAX_ARENA_CAPACITY
        if r.1 then v_alloc_resize_grow env r.2 size_in_bytes
        else (none, r.2)
      else
        v_alloc_resize_grow env alloc_info size_in_bytes
    else
      (some alloc_info.base, alloc_info)

/-- C `v_alloc_realloc`, with the embedded header's `AllocInfo` passed
explicitly (in C it lives in memory at `data - hdrDataOffset`); the returned
`AllocInfo` is the embedded descriptor after the call.  The data pointer
returned on the grow path is `alloc_hdr->data`, i.e. the recovered header
address plus the fixed offset. -/
def v_alloc_realloc (env : Env) (data : Nat) (info : AllocInfo) (total_size : Nat) :
    Option Nat × AllocInfo :=
  if total_size = 0 then
    if data = 0 then
      (none, info)
    else
      (none, (v_alloc_free env info).2)
  else
    let total_size := total_size + hdrDataOffset
    if data = 0 then
      let alloc_info : AllocInfo := ⟨0, 0, 0, 0, 0⟩
      match v_alloc_resize env alloc_info total_size with
      | (none, _) => (none, info)
      | (some _, ai) => (some (ai.base + hdrDataOffset), ai)
    else
      let alloc_hdr := v_alloc_hdr_from_data data
      match v_alloc_resize env info total_size with
      | (none, ai) => (none, ai)
      | (some _, ai) => (some (alloc_hdr + hdrDataOffset), ai)

/-- Runs a sequence of `v_alloc_committ` calls, recording for each successful
call the returned pointer together with the 16-aligned request size (the
extent of the handed-out range); `none` when any call fails. -/
def committSeq (env : Env) (ai : AllocInfo) : List Nat → Option (List (Nat × Nat) × AllocInfo)
  | [] => some ([], ai)
  | n :: ns =>
    match v_alloc_committ env ai n with
    | (none, _) => none
    | (some p, ai2) =>
      match committSeq env ai2 ns with
      | none => none
      | some (ps, aiF) => some ((p, ALIGN_UP n V_ALLOC_ALIGNMENT) :: ps, aiF)

/-- Runs a sequence of `v_alloc_realloc` calls on one allocation, threading the
data pointer and the embedded descriptor; `none` when any call fails. -/
def reallocSeq (env : Env) : Nat → AllocInfo → List Nat → Option (Nat × AllocInfo)
  | data, info, [] => some (data, info)
  | data, info, n :: ns =>
    match v_alloc_realloc env data info n with
    | (some d, info2) => reallocSeq env d info2 ns
    | (none, _) => none

/-- The descriptor invariant stated by the spec:
`base ≤ cursor ≤ committedEnd ≤ base + reservedSize` and `committedEnd - base`
is a multiple of the page size. -/
def AllocInv (ai : AllocInfo) : Prop :=
  ai.base ≤ ai.ptr ∧ ai.ptr ≤ ai.end_ ∧ ai.end_ ≤ ai.base + ai.reserved_size ∧
    ai.page_size ∣ (ai.end_ - ai.base)

instance (ai : AllocInfo) : Decidable (AllocInv ai) := by
  unfold AllocInv
  infer_instance

/-- A platform oracle where every OS call succeeds; the reserve call returns
address 65536 and the page size is 4096. -/
def env0 : Env :=
  ⟨65536, 4096, true, true, true⟩

/-- A platform oracle whose commit call (mprotect) fails. -/
def envCommitFail : Env :=
  ⟨65536, 4096, false, true, true⟩

/-- A platform oracle whose reserve call (mmap) fails. -/
def envReserveFail : Env :=
  ⟨0, 4096, true, true, true⟩

/-! Helper lemmas about the alignment arithmetic and the commit-result check. -/

theorem le_ALIGN_UP (n a : Nat) (ha : 0 < a) : n ≤ ALIGN_UP n a := by
  have ha' : a ≠ 0 := Nat.pos_iff_ne_zero.mp ha
  unfold ALIGN_UP
  rw [if_neg ha']
  rcases Nat.eq_zero_or_pos n with hn | hn
  · subst hn; exact Nat.zero_le _
  · have h1 : n + a - 1 = (n - 1) + a := by omega
    rw [h1, Nat.add_div_right _ ha, Nat.add_mul, Nat.one_mul]
    have key := Nat.div_add_mod (n - 1) a
    have hr : (n - 1) % a < a := Nat.mod_lt _ ha
    have h2 : (n - 1) / a * a = a * ((n - 1) / a) := Nat.mul_comm _ _
    rw [h2]
    have h4 : n = a * ((n - 1) / a) + (n - 1) % a + 1 := by
      rw [key]; omega
    refine le_trans (le_of_eq h4) ?_
    rw [Nat.add_assoc]
    exact Nat.add_le_add_left (Nat.succ_le_of_lt hr) _

theorem ALIGN_UP_dvd (n a : Nat) (ha : 0 < a) : a ∣ ALIGN_UP n a := by
  have ha' : a ≠ 0 := Nat.pos_iff_ne_zero.mp ha
  unfold ALIGN_UP
  rw [if_neg ha']
  exact ⟨(n + a - 1) / a, Nat.mul_comm _ _⟩

theorem ALIGN_UP_pos (n a : Nat) (ha : 0 < a) (hn : 0 < n) : 0 < ALIGN_UP n a :=
  lt_of_lt_of_le hn (le_ALIGN_UP n a ha)

theorem ALIGN_DOWN_PTR_eq_of_dvd (p a : Nat) (ha : 0 < a) (h : a ∣ p) :
    ALIGN_DOWN_PTR p a = p := by
  have ha' : a ≠ 0 := Nat.pos_iff_ne_zero.mp ha
  unfold ALIGN_DOWN_PTR
  rw [if_neg ha']
  exact Nat.div_mul_cancel h

theorem posix_commit_check (env : Env) (addr t b : Nat) :
    ¬ ((if v_alloc_posix_commit env addr t b then (1 : Int) else 0) = -1) := by
  unfold v_alloc_posix_commit
  cases h : env.commitOsOk <;> simp

/-! Branch-case lemmas for each allocator operation. -/

theorem committ_zero (env : Env) (ai : AllocInfo) :
    v_alloc_committ env ai 0 = (none, ai) := by
  unfold v_alloc_committ
  rw [if_pos rfl]

theorem committ_fast (env : Env) (ai : AllocInfo) (n : Nat) (hn : n ≠ 0)
    (h : ¬ ALIGN_UP n V_ALLOC_ALIGNMENT > ai.end_ - ai.ptr) :
    v_alloc_committ env ai n =
      (some ai.ptr, { ai with ptr := ai.ptr + ALIGN_UP n V_ALLOC_ALIGNMENT }) := by
  simp only [v_alloc_committ]
  rw [if_neg hn, if_neg h]

theorem committ_grow_eq (env : Env) (ai : AllocInfo) (n : Nat) (hn : n ≠ 0)
    (hb : ai.base ≠ 0) (h : ALIGN_UP n V_ALLOC_ALIGNMENT > ai.end_ - ai.ptr) :
    v_alloc_committ env ai n =
      v_alloc_committ_grow env ai (ALIGN_UP n V_ALLOC_ALIGNMENT) := by
  simp only [v_alloc_committ]
  rw [if_neg hn, if_pos h, if_neg hb]

theorem committ_grow_out (env : Env) (ai : AllocInfo) (A : Nat)
    (h : ai.ptr + ALIGN_UP A ai.page_size > ai.base + ai.reserved_size) :
    v_alloc_committ_grow env ai A = (none, ai) := by
  simp only [v_alloc_committ_grow]
  rw [if_pos h]

theorem committ_grow_ok (env : Env) (ai : AllocInfo) (A : Nat)
    (h : ¬ ai.ptr + ALIGN_UP A ai.page_size > ai.base + ai.reserved_size) :
    v_alloc_committ_grow env ai A =
      (some ai.ptr,
        { ai with
            end_ := ai.base + (ai.end_ - ai.base + ALIGN_UP A ai.page_size),
            ptr := ai.ptr + A }) := by
  simp only [v_alloc_committ_grow]
  rw [if_neg h, if_neg (posix_commit_check env ai.base _ _)]

theorem free_snd (env : Env) (ai : AllocInfo) : (v_alloc_free env ai).2 = ai := by
  unfold v_alloc_free
  split <;> rfl

theorem resize_zero (env : Env) (ai : AllocInfo) :
    v_alloc_resize env ai 0 = (none, ai) := by
  unfold v_alloc_resize
  rw [if_pos rfl, free_snd]

theorem resize_fits (env : Env) (ai : AllocInfo) (n : Nat) (hn : n ≠ 0)
    (h : ¬ n > ai.end_ - ai.base) :
    v_alloc_resize env ai n = (some ai.base, ai) := by
  simp only [v_alloc_resize]
  rw [if_neg hn, if_neg h]

theorem resize_grow_eq (env : Env) (ai : AllocInfo) (n : Nat) (hn : n ≠ 0)
    (hb : ai.base ≠ 0) (h : n > ai.end_ - ai.base) :
    v_alloc_resize env ai n = v_alloc_resize_grow env ai n := by
  simp only [v_alloc_resize]
  rw [if_neg hn, if_pos h, if_neg hb]

theorem resize_grow_out (env : Env) (ai : AllocInfo) (n : Nat)
    (h : ALIGN_UP n ai.page_size + ai.base > ai.base + ai.reserved_size) :
    v_alloc_resize_grow env ai n = (none, ai) := by
  simp only [v_alloc_resize_grow]
  rw [if_pos h]

theorem resize_grow_ok (env : Env) (ai : AllocInfo) (n : Nat)
    (h : ¬ ALIGN_UP n ai.page_size + ai.base > ai.base + ai.reserved_size) :
    v_alloc_resize_grow env ai n =
      (some ai.base,
        { ai with
            end_ := ai.base + ALIGN_UP n ai.page_size,
            ptr := ai.base + ALIGN_UP n ai.page_size }) := by
  simp only [v_alloc_resize_grow]
  rw [if_neg h, if_neg (posix_commit_check env ai.base _ _)]

theorem decommit_run (env : Env) (ai : AllocInfo) (x : Nat) (hx : x ≠ 0)
    (h : ¬ ALIGN_UP x ai.page_size > ai.end_ - ai.base) :
    v_alloc_decommit env ai x =
      (env.decommitOsOk,
        if env.decommitOsOk then
          { ai with
              end_ := ALIGN_DOWN_PTR (ai.end_ - ALIGN_UP x ai.page_size) ai.page_size }
        else ai) := by
  simp only [v_alloc_decommit, v_alloc_posix_decommit]
  rw [if_neg hx, if_neg h]
  cases hd : env.decommitOsOk <;> simp

theorem decommit_out (env : Env) (ai : AllocInfo) (x : Nat) (hx : x ≠ 0)
    (h : ALIGN_UP x ai.page_size > ai.end_ - ai.base) :
    v_alloc_decommit env ai x = (false, ai) := by
  simp only [v_alloc_decommit]
  rw [if_neg hx, if_pos h]

/-! Claim theorems. -/

/-- C5: Zero-size rejection — for every descriptor (reserved or not) and every
platform oracle, `v_alloc_committ` with a zero request returns the failure
sentinel `none` and leaves every field of the descriptor unchanged. -/
theorem committ_zero_size_rejected (env : Env) (ai : AllocInfo) :
    v_alloc_committ env ai 0 = (none, ai) :=
  committ_zero env ai

/-- C8: Resize never shrinks committed memory — for every request
`0 < size_in_bytes ≤ end - base`, `v_alloc_resize` succeeds, returns `base`,
performs no decommit, and leaves the whole descriptor (in particular `end` and
`reserved_size`) unchanged. -/
theorem resize_no_shrink (env : Env) (ai : AllocInfo) (n : Nat)
    (h1 : 0 < n) (h2 : n ≤ ai.end_ - ai.base) :
    v_alloc_resize env ai n = (some ai.base, ai) :=
  resize_fits env ai n (Nat.pos_iff_ne_zero.mp h1) (by omega)

/-- Witness for C8 at a concrete reserved descriptor and in-committed-range
request. -/
theorem resize_no_shrink_witness :
    v_alloc_resize env0 ⟨65536, 65584, 69632, 1048576, 4096⟩ 4096 =
      (some 65536, ⟨65536, 65584, 69632, 1048576, 4096⟩) :=
  resize_no_shrink env0 ⟨65536, 65584, 69632, 1048576, 4096⟩ 4096 (by decide) (by decide)

/-- C10: Release does not clear the descriptor — a `v_alloc_free` on a reserved
descriptor leaves every field unchanged, so a second `v_alloc_free` passes the
never-reserved check and invokes the platform release again on the same
`(base, reserved_size)` range. -/
theorem free_preserves_descriptor (env : Env) (ai : AllocInfo) (hb : ai.base ≠ 0) :
    v_alloc_free env ai = (v_alloc_posix_release env ai.base ai.reserved_size, ai) ∧
    v_alloc_free env (v_alloc_free env ai).2 =
      (v_alloc_posix_release env ai.base ai.reserved_size, ai) := by
  have h : v_alloc_free env ai = (v_alloc_posix_release env ai.base ai.reserved_size, ai) := by
    unfold v_alloc_free
    rw [if_neg hb]
  exact ⟨h, by rw [h]; exact h⟩

/-- Witness for C10 at a concrete reserved descriptor. -/
theorem free_preserves_descriptor_witness :
    v_alloc_free env0 ⟨65536, 65584, 69632, 1048576, 4096⟩ =
      (v_alloc_posix_release env0 65536 1048576, ⟨65536, 65584, 69632, 1048576, 4096⟩) ∧
    v_alloc_free env0 (v_alloc_free env0 ⟨65536, 65584, 69632, 1048576, 4096⟩).2 =
      (v_alloc_posix_release env0 65536 1048576, ⟨65536, 65584, 69632, 1048576, 4096⟩) :=
  free_preserves_descriptor env0 ⟨65536, 65584, 69632, 1048576, 4096⟩ (by decide)

/-- C9: Decommit behaviour — on a reserved descriptor (positive page size,
page-aligned base, page-aligned committed size): a positive `extra_size` whose
page-aligned value fits in the committed region lowers `end` by the
page-aligned `extra_size` exactly when the platform decommit succeeds, the
page-aligned-down target equals `end` minus that amount, and any `extra_size`
exceeding the committed size fails with `false` leaving the descriptor
unchanged. -/
theorem decommit_behaviour (env : Env) (ai : AllocInfo)
    (hpage : 0 < ai.page_size) (hbase : ai.page_size ∣ ai.base)
    (hcomm : ai.page_size ∣ (ai.end_ - ai.base)) (hle : ai.base ≤ ai.end_) :
    (∀ x, 0 < x → ALIGN_UP x ai.page_size ≤ ai.end_ - ai.base →
      ALIGN_DOWN_PTR (ai.end_ - ALIGN_UP x ai.page_size) ai.page_size =
          ai.end_ - ALIGN_UP x ai.page_size ∧
      v_alloc_decommit env ai x =
        (env.decommitOsOk,
          if env.decommitOsOk then
            { ai with end_ := ai.end_ - ALIGN_UP x ai.page_size }
          else ai)) ∧
    (∀ x, x > ai.end_ - ai.base → v_alloc_decommit env ai x = (false, ai)) := by
  constructor
  · intro x hx hfit
    have hdvd : ai.page_size ∣ (ai.end_ - ALIGN_UP x ai.page_size) := by
      have hup : ai.page_size ∣ ALIGN_UP x ai.page_size := ALIGN_UP_dvd x _ hpage
      have hsplit : ai.end_ - ALIGN_UP x ai.page_size =
          ai.base + (ai.end_ - ai.base - ALIGN_UP x ai.page_size) := by omega
      rw [hsplit]
      exact Nat.dvd_add hbase (Nat.dvd_sub' hcomm hup)
    have htar := ALIGN_DOWN_PTR_eq_of_dvd _ _ hpage hdvd
    refine ⟨htar, ?_⟩
    rw [decommit_run env ai x (Nat.pos_iff_ne_zero.mp hx) (by omega), htar]
  · intro x hx
    have hx0 : x ≠ 0 := by omega
    exact decommit_out env ai x hx0 (lt_of_lt_of_le hx (le_ALIGN_UP x _ hpage))

/-- Witness for C9: decommitting 5000 bytes from a 12288-byte committed region
removes one 8192-byte page-aligned tail; decommitting 20000 bytes fails. -/
theorem decommit_behaviour_witness :
    v_alloc_decommit env0 ⟨65536, 65584, 77824, 1048576, 4096⟩ 5000 =
      (true, ⟨65536, 65584, 69632, 1048576, 4096⟩) ∧
    v_alloc_decommit env0 ⟨65536, 65584, 77824, 1048576, 4096⟩ 20000 =
      (false, ⟨65536, 65584, 77824, 1048576, 4096⟩) := by
  have h := decommit_behaviour env0 ⟨65536, 65584, 77824, 1048576, 4096⟩
    (by decide) (by decide) (by decide) (by decide)
  refine ⟨?_, h.2 20000 (by decide)⟩
  have h2 := (h.1 5000 (by decide) (by decide)).2
  rw [h2]
  decide

/-- C6 counterexample: the claim quantifies over ANY size `S` whose 16-aligned
value fits in the already-committed region; at `S = 0` the aligned value `0`
fits, yet `v_alloc_committ` rejects the request with `none` instead of
succeeding with the arena base. -/
theorem reset_reuse_counterexample :
    ALIGN_UP 0 V_ALLOC_ALIGNMENT ≤
        (AllocInfo.mk 65536 65584 69632 1048576 4096).end_ -
          (AllocInfo.mk 65536 65584 69632 1048576 4096).base ∧
    (v_alloc_committ env0 (v_alloc_reset ⟨65536, 65584, 69632, 1048576, 4096⟩) 0).1 =
        none := by
  decide

/-- C6 (amended): for every descriptor, after `v_alloc_reset` the cursor is
`base`, and the next `v_alloc_committ` of any POSITIVE size `S` whose
16-aligned value fits in the already-committed region (`ALIGN_UP S 16 ≤ end -
base`) succeeds, returns the arena base pointer, and performs no new platform
commit (the result does not depend on the oracle and `end` is unchanged). -/
theorem reset_reuse_amended (env : Env) (ai : AllocInfo) (S : Nat)
    (hS : 0 < S) (hfit : ALIGN_UP S V_ALLOC_ALIGNMENT ≤ ai.end_ - ai.base) :
    v_alloc_committ env (v_alloc_reset ai) S =
      (some ai.base, { ai with ptr := ai.base + ALIGN_UP S V_ALLOC_ALIGNMENT }) := by
  have hcond : ¬ ALIGN_UP S V_ALLOC_ALIGNMENT >
      (v_alloc_reset ai).end_ - (v_alloc_reset ai).ptr := by
    simp only [v_alloc_reset]
    omega
  rw [committ_fast env (v_alloc_reset ai) S (Nat.pos_iff_ne_zero.mp hS) hcond]
  rfl

/-- Witness for C6: the spec scenario — reserve a 1 MiB arena, allocate 33
bytes (aligned to 48), reset, allocate 40 bytes; the second allocation's
pointer equals the arena base. -/
theorem reset_reuse_witness :
    v_alloc_reserve env0 ⟨0, 0, 0, 0, 0⟩ 1048576 =
      (true, ⟨65536, 65536, 65536, 1048576, 4096⟩) ∧
    v_alloc_committ env0 ⟨65536, 65536, 65536, 1048576, 4096⟩ 33 =
      (some 65536, ⟨65536, 65584, 69632, 1048576, 4096⟩) ∧
    v_alloc_committ env0 (v_alloc_reset ⟨65536, 65584, 69632, 1048576, 4096⟩) 40 =
      (some 65536, ⟨65536, 65584, 69632, 1048576, 4096⟩) := by
  refine ⟨by decide, by decide, ?_⟩
  rw [reset_reuse_amended env0 ⟨65536, 65584, 69632, 1048576, 4096⟩ 40
    (by decide) (by decide)]
  decide

/-- C2 counterexample: on descriptor `base = 4096, ptr = 4096, end = 8192,
reserved_size = 8192, page_size = 4096` (a reachable state: one page past the
cursor is already committed), a request of 5000 bytes has page-aligned growth
8192, which would put the new `end` at 16384, beyond `base + reserved_size =
12288`; the claim says this must fail with the sentinel, yet the call succeeds
and commits `end` beyond the reservation, because the source's guard compares
`ptr + growth` rather than `end + growth` with the reservation limit. -/
theorem capacity_boundary_counterexample :
    (AllocInfo.mk 4096 4096 8192 8192 4096).end_ +
        ALIGN_UP (ALIGN_UP 5000 V_ALLOC_ALIGNMENT)
          (AllocInfo.mk 4096 4096 8192 8192 4096).page_size >
      (AllocInfo.mk 4096 4096 8192 8192 4096).base +
        (AllocInfo.mk 4096 4096 8192 8192 4096).reserved_size ∧
    v_alloc_committ env0 ⟨4096, 4096, 8192, 8192, 4096⟩ 5000 =
      (some 4096, ⟨4096, 9104, 16384, 8192, 4096⟩) ∧
    (16384 : Nat) > 4096 + 8192 := by
  decide

/-- C2 (amended): the out-of-reserved-space guards are: on a descriptor with
`ptr ≤ end` (true of every reserved descriptor the allocation path can see;
when `ptr > end` the source's `(size_t)(end - ptr)` cast wraps and the fast
path is taken instead), `v_alloc_committ` fails with `none` (descriptor
unchanged) whenever the page-aligned growth added to the CURSOR `ptr` would
exceed `base + reserved_size` (so the new cursor never exceeds the
reservation, but `end` may — see the counterexample); `v_alloc_resize` fails
with `none` (descriptor unchanged) whenever the page-aligned total size
exceeds `reserved_size`, and consequently a resize never moves `end` beyond
`base + reserved_size`. -/
theorem capacity_boundary_amended :
    (∀ (env : Env) (ai : AllocInfo) (n : Nat), n ≠ 0 → ai.base ≠ 0 →
      ai.ptr ≤ ai.end_ →
      ALIGN_UP n V_ALLOC_ALIGNMENT > ai.end_ - ai.ptr →
      ai.ptr + ALIGN_UP (ALIGN_UP n V_ALLOC_ALIGNMENT) ai.page_size >
          ai.base + ai.reserved_size →
      v_alloc_committ env ai n = (none, ai)) ∧
    (∀ (env : Env) (ai : AllocInfo) (n : Nat), n ≠ 0 → ai.base ≠ 0 →
      n > ai.end_ - ai.base →
      ALIGN_UP n ai.page_size > ai.reserved_size →
      v_alloc_resize env ai n = (none, ai)) ∧
    (∀ (env : Env) (ai : AllocInfo) (n : Nat), ai.base ≠ 0 →
      ai.end_ ≤ ai.base + ai.reserved_size →
      (v_alloc_resize env ai n).2.end_ ≤
        (v_alloc_resize env ai n).2.base + (v_alloc_resize env ai n).2.reserved_size) := by
  refine ⟨?_, ?_, ?_⟩
  · intro env ai n hn hb hpe hgrow hover
    rw [committ_grow_eq env ai n hn hb hgrow]
    exact committ_grow_out env ai _ hover
  · intro env ai n hn hb hgt hover
    rw [resize_grow_eq env ai n hn hb hgt]
    exact resize_grow_out env ai n (by omega)
  · intro env ai n hb hend
    by_cases hn : n = 0
    · subst hn
      rw [resize_zero]
      exact hend
    · by_cases hgt : n > ai.end_ - ai.base
      · rw [resize_grow_eq env ai n hn hb hgt]
        by_cases hover : ALIGN_UP n ai.page_size + ai.base > ai.base + ai.reserved_size
        · rw [resize_grow_out env ai n hover]
          exact hend
        · rw [resize_grow_ok env ai n hover]
          dsimp only
          omega
      · rw [resize_fits env ai n hn hgt]
        exact hend

/-- Witness for C2 (amended): a request far past the reservation fails with
the sentinel on both paths. -/
theorem capacity_boundary_witness :
    v_alloc_committ env0 ⟨4096, 4096, 4096, 4096, 4096⟩ 8000 =
      (none, ⟨4096, 4096, 4096, 4096, 4096⟩) ∧
    v_alloc_resize env0 ⟨4096, 4096, 4096, 4096, 4096⟩ 8000 =
      (none, ⟨4096, 4096, 4096, 4096, 4096⟩) :=
  ⟨capacity_boundary_amended.1 env0 ⟨4096, 4096, 4096, 4096, 4096⟩ 8000
      (by decide) (by decide) (by decide) (by decide) (by decide),
   capacity_boundary_amended.2.1 env0 ⟨4096, 4096, 4096, 4096, 4096⟩ 8000
      (by decide) (by decide) (by decide) (by decide)⟩

/-- C3 (code bug evidence): with the platform commit failing (mprotect returns
-1), the POSIX commit wrapper returns `true` (its success conversion is
inverted), and `v_alloc_committ` — whose check compares the boolean commit
result with `-1`, which can never hold — proceeds as if the commit succeeded:
it returns a non-null pointer and advances both `end` and the cursor, instead
of returning the sentinel with the descriptor unchanged. -/
theorem commit_failure_ignored :
    v_alloc_posix_commit envCommitFail 4096 4096 4096 = true ∧
    v_alloc_committ envCommitFail ⟨4096, 4096, 4096, 8192, 4096⟩ 100 =
      (some 4096, ⟨4096, 4208, 8192, 8192, 4096⟩) ∧
    v_alloc_resize envCommitFail ⟨4096, 4096, 4096, 8192, 4096⟩ 100 =
      (some 4096, ⟨4096, 8192, 8192, 8192, 4096⟩) := by
  decide

/-- C4 counterexample: a failed `v_alloc_reserve` on a descriptor that
satisfies the invariant but was already reserved writes `base = 0` while
leaving `ptr`, `end` and `reserved_size` untouched, so afterwards
`end = 8192 > base + reserved_size = 4096`: the invariant is not preserved by
every operation on every invariant-satisfying descriptor. -/
theorem invariant_preservation_counterexample :
    AllocInv ⟨4096, 4096, 8192, 4096, 4096⟩ ∧
    v_alloc_reserve envReserveFail ⟨4096, 4096, 8192, 4096, 4096⟩ 4096 =
      (false, ⟨0, 4096, 8192, 4096, 4096⟩) ∧
    ¬ AllocInv ⟨0, 4096, 8192, 4096, 4096⟩ := by
  decide

/-- C4 (amended): on a descriptor satisfying the invariant
`base ≤ ptr ≤ end ≤ base + reserved_size` with `end - base` a page-size
multiple: reset and a successful reserve preserve the full invariant;
`v_alloc_resize` (success or failure, positive page size, already reserved)
preserves the full invariant; `v_alloc_committ` (same side conditions)
preserves everything except the bound `end ≤ base + reserved_size`, which
weakens to `ptr ≤ base + reserved_size` (see the C2 counterexample);
`v_alloc_decommit` (page-aligned base) preserves everything except
`ptr ≤ end`; `v_alloc_free` leaves the descriptor unchanged; and a FAILED
reserve on an already-reserved descriptor can break the invariant (see the
counterexample). -/
theorem invariant_preservation_amended :
    (∀ ai : AllocInfo, AllocInv ai → AllocInv (v_alloc_reset ai)) ∧
    (∀ (env : Env) (ai : AllocInfo) (sz : Nat), env.reserveAddr ≠ 0 →
      AllocInv (v_alloc_reserve env ai sz).2) ∧
    (∀ (env : Env) (ai : AllocInfo) (n : Nat), AllocInv ai → ai.base ≠ 0 →
      0 < ai.page_size →
      (v_alloc_committ env ai n).2.base = ai.base ∧
      (v_alloc_committ env ai n).2.reserved_size = ai.reserved_size ∧
      (v_alloc_committ env ai n).2.page_size = ai.page_size ∧
      ai.base ≤ (v_alloc_committ env ai n).2.ptr ∧
      (v_alloc_committ env ai n).2.ptr ≤ (v_alloc_committ env ai n).2.end_ ∧
      ai.page_size ∣ ((v_alloc_committ env ai n).2.end_ - ai.base) ∧
      (v_alloc_committ env ai n).2.ptr ≤ ai.base + ai.reserved_size) ∧
    (∀ (env : Env) (ai : AllocInfo) (x : Nat), AllocInv ai → 0 < ai.page_size →
      ai.page_size ∣ ai.base →
      (v_alloc_decommit env ai x).2.base = ai.base ∧
      (v_alloc_decommit env ai x).2.ptr = ai.ptr ∧
      ai.base ≤ (v_alloc_decommit env ai x).2.end_ ∧
      (v_alloc_decommit env ai x).2.end_ ≤ ai.base + ai.reserved_size ∧
      ai.page_size ∣ ((v_alloc_decommit env ai x).2.end_ - ai.base)) ∧
    (∀ (env : Env) (ai : AllocInfo) (n : Nat), AllocInv ai → ai.base ≠ 0 →
      0 < ai.page_size → AllocInv (v_alloc_resize env ai n).2) ∧
    (∀ (env : Env) (ai : AllocInfo), (v_alloc_free env ai).2 = ai) := by
  refine ⟨?_, ?_, ?_, ?_, ?_, ?_⟩
  · rintro ai ⟨h1, h2, h3, h4⟩
    exact ⟨Nat.le_refl _, le_trans h1 h2, h3, h4⟩
  · intro env ai sz h
    simp only [v_alloc_reserve]
    rw [if_neg h]
    refine ⟨Nat.le_refl _, Nat.le_refl _, Nat.le_add_right _ _, ?_⟩
    simp
  · rintro env ai n ⟨h1, h2, h3, h4⟩ hb hp
    by_cases hn : n = 0
    · subst hn
      rw [committ_zero]
      exact ⟨rfl, rfl, rfl, h1, h2, h4, le_trans h2 h3⟩
    · by_cases hfast : ALIGN_UP n V_ALLOC_ALIGNMENT > ai.end_ - ai.ptr
      · rw [committ_grow_eq env ai n hn hb hfast]
        by_cases hover : ai.ptr + ALIGN_UP (ALIGN_UP n V_ALLOC_ALIGNMENT) ai.page_size >
            ai.base + ai.reserved_size
        · rw [committ_grow_out env ai _ hover]
          exact ⟨rfl, rfl, rfl, h1, h2, h4, le_trans h2 h3⟩
        · rw [committ_grow_ok env ai _ hover]
          dsimp only
          have hAA := le_ALIGN_UP (ALIGN_UP n V_ALLOC_ALIGNMENT) ai.page_size hp
          refine ⟨rfl, rfl, rfl, by omega, by omega, ?_, by omega⟩
          have hcan : ai.base + (ai.end_ - ai.base +
              ALIGN_UP (ALIGN_UP n V_ALLOC_ALIGNMENT) ai.page_size) - ai.base =
              ai.end_ - ai.base + ALIGN_UP (ALIGN_UP n V_ALLOC_ALIGNMENT) ai.page_size := by
            omega
          rw [hcan]
          exact Nat.dvd_add h4 (ALIGN_UP_dvd _ _ hp)
      · rw [committ_fast env ai n hn hfast]
        dsimp only
        exact ⟨rfl, rfl, rfl, by omega, by omega, h4, by omega⟩
  · rintro env ai x ⟨h1, h2, h3, h4⟩ hp hpb
    by_cases hx : x = 0
    · subst hx
      have hz : v_alloc_decommit env ai 0 = (false, ai) := by
        unfold v_alloc_decommit
        rw [if_pos rfl]
      rw [hz]
      exact ⟨rfl, rfl, le_trans h1 h2, h3, h4⟩
    · by_cases hfit : ALIGN_UP x ai.page_size > ai.end_ - ai.base
      · rw [decommit_out env ai x hx hfit]
        exact ⟨rfl, rfl, le_trans h1 h2, h3, h4⟩
      · have hdvd : ai.page_size ∣ (ai.end_ - ALIGN_UP x ai.page_size) := by
          have hup : ai.page_size ∣ ALIGN_UP x ai.page_size := ALIGN_UP_dvd x _ hp
          have hsplit : ai.end_ - ALIGN_UP x ai.page_size =
              ai.base + (ai.end_ - ai.base - ALIGN_UP x ai.page_size) := by omega
          rw [hsplit]
          exact Nat.dvd_add hpb (Nat.dvd_sub' h4 hup)
        have hrun := decommit_run env ai x hx hfit
        rw [ALIGN_DOWN_PTR_eq_of_dvd _ _ hp hdvd] at hrun
        rw [hrun]
        cases hd : env.decommitOsOk
        · exact ⟨rfl, rfl, le_trans h1 h2, h3, h4⟩
        · refine ⟨rfl, rfl, ?_, ?_, ?_⟩
          · show ai.base ≤ ai.end_ - ALIGN_UP x ai.page_size
            omega
          · show ai.end_ - ALIGN_UP x ai.page_size ≤ ai.base + ai.reserved_size
            omega
          · show ai.page_size ∣ (ai.end_ - ALIGN_UP x ai.page_size - ai.base)
            have hup : ai.page_size ∣ ALIGN_UP x ai.page_size := ALIGN_UP_dvd x _ hp
            have hsplit : ai.end_ - ALIGN_UP x ai.page_size - ai.base =
                ai.end_ - ai.base - ALIGN_UP x ai.page_size := by omega
            rw [hsplit]
            exact Nat.dvd_sub' h4 hup
  · rintro env ai n ⟨h1, h2, h3, h4⟩ hb hp
    by_cases hn : n = 0
    · subst hn
      rw [resize_zero]
      exact ⟨h1, h2, h3, h4⟩
    · by_cases hgt : n > ai.end_ - ai.base
      · rw [resize_grow_eq env ai n hn hb hgt]
        by_cases hover : ALIGN_UP n ai.page_size + ai.base > ai.base + ai.reserved_size
        · rw [resize_grow_out env ai n hover]
          exact ⟨h1, h2, h3, h4⟩
        · rw [resize_grow_ok env ai n hover]
          refine ⟨Nat.le_add_right _ _, Nat.le_refl _, by dsimp only; omega, ?_⟩
          dsimp only
          have hcan : ai.base + ALIGN_UP n ai.page_size - ai.base =
              ALIGN_UP n ai.page_size := by omega
          rw [hcan]
          exact ALIGN_UP_dvd _ _ hp
      · rw [resize_fits env ai n hn hgt]
        exact ⟨h1, h2, h3, h4⟩
  · intro env ai
    exact free_snd env ai

/-- Witness for C4 (amended): concrete invariant-satisfying descriptor, reset
and a growing resize both land back inside the invariant. -/
theorem invariant_preservation_witness :
    AllocInv (v_alloc_reset ⟨65536, 65584, 69632, 1048576, 4096⟩) ∧
    AllocInv (v_alloc_resize env0 ⟨65536, 65584, 69632, 1048576, 4096⟩ 20000).2 :=
  ⟨invariant_preservation_amended.1 ⟨65536, 65584, 69632, 1048576, 4096⟩ (by decide),
   invariant_preservation_amended.2.2.2.2.1 env0 ⟨65536, 65584, 69632, 1048576, 4096⟩
      20000 (by decide) (by decide) (by decide)⟩

/-- A successful `v_alloc_resize` on an already-reserved descriptor returns the
descriptor's base address and leaves that base unchanged. -/
theorem resize_some_base (env : Env) (ai : AllocInfo) (n : Nat) (hb : ai.base ≠ 0)
    (p : Nat) (ai2 : AllocInfo) (h : v_alloc_resize env ai n = (some p, ai2)) :
    p = ai.base ∧ ai2.base = ai.base := by
  by_cases hn : n = 0
  · subst hn
    rw [resize_zero] at h
    exact absurd h (by simp)
  · by_cases hgt : n > ai.end_ - ai.base
    · rw [resize_grow_eq env ai n hn hb hgt] at h
      by_cases hover : ALIGN_UP n ai.page_size + ai.base > ai.base + ai.reserved_size
      · rw [resize_grow_out env ai n hover] at h
        exact absurd h (by simp)
      · rw [resize_grow_ok env ai n hover] at h
        injection h with h1 h2
        injection h1 with h1
        subst h2
        exact ⟨h1.symm, rfl⟩
    · rw [resize_fits env ai n hn hgt] at h
      injection h with h1 h2
      injection h1 with h1
      subst h2
      exact ⟨h1.symm, rfl⟩

/-- A successful `v_alloc_realloc` call with a non-null data pointer and a
positive size returns exactly the data pointer it was given and keeps the
embedded descriptor's base. -/
theorem realloc_step (env : Env) (data : Nat) (info : AllocInfo) (n : Nat)
    (hd : data ≠ 0) (hoff : hdrDataOffset ≤ data) (hb : info.base ≠ 0) (hn : 0 < n)
    (d : Nat) (info2 : AllocInfo)
    (h : v_alloc_realloc env data info n = (some d, info2)) :
    d = data ∧ info2.base = info.base := by
  unfold v_alloc_realloc at h
  rw [if_neg (Nat.pos_iff_ne_zero.mp hn), if_neg hd] at h
  cases hres : v_alloc_resize env info (n + hdrDataOffset) with
  | mk o ai =>
    rw [hres] at h
    cases o with
    | none =>
      exact absurd h (by simp)
    | some q =>
      injection h with h1 h2
      injection h1 with h1
      obtain ⟨hq, hba⟩ := resize_some_base env info (n + hdrDataOffset) hb q ai hres
      refine ⟨?_, ?_⟩
      · rw [← h1]
        unfold v_alloc_hdr_from_data
        omega
      · rw [← h2]
        exact hba

/-- Pointer stability over a whole sequence of successful `v_alloc_realloc`
calls: the data pointer after the sequence equals the initial one and the
embedded base never moves. -/
theorem reallocSeq_stability (env : Env) (ns : List Nat) :
    ∀ (data : Nat) (info : AllocInfo) (d : Nat) (infoF : AllocInfo),
    data ≠ 0 → hdrDataOffset ≤ data → info.base ≠ 0 → (∀ n ∈ ns, 0 < n) →
    reallocSeq env data info ns = some (d, infoF) →
    d = data ∧ infoF.base = info.base := by
  induction ns with
  | nil =>
    intro data info d infoF hd hoff hb hpos h
    unfold reallocSeq at h
    injection h with h1
    injection h1 with ha hb2
    subst ha
    subst hb2
    exact ⟨rfl, rfl⟩
  | cons n ns ih =>
    intro data info d infoF hd hoff hb hpos h
    unfold reallocSeq at h
    cases hc : v_alloc_realloc env data info n with
    | mk o info2 =>
      rw [hc] at h
      cases o with
      | none =>
        exact absurd h (by simp)
      | some d2 =>
        have hstep := realloc_step env data info n hd hoff hb
          (hpos n (List.mem_cons_self n ns)) d2 info2 hc
        obtain ⟨hd2, hb2⟩ := hstep
        rw [hd2] at h
        have hrest := ih data info2 d infoF hd hoff
          (by rw [hb2]; exact hb)
          (fun m hm => hpos m (List.mem_cons_of_mem n hm)) h
        exact ⟨hrest.1, by rw [hrest.2, hb2]⟩

/-- C1: Pointer stability of the growable allocation — for every sequence of
`v_alloc_realloc` calls on the same allocation in which every call succeeds
(non-null data pointer, positive sizes), each call returns a data pointer
bit-identical to the pointer it was given (so the final pointer equals the
initial one and the embedded base never changes); equivalently, a successful
`v_alloc_resize` on a reserved descriptor always returns the descriptor's
unchanged base address. -/
theorem realloc_pointer_stability :
    (∀ (env : Env) (data : Nat) (info : AllocInfo) (ns : List Nat)
        (d : Nat) (infoF : AllocInfo),
      data ≠ 0 → hdrDataOffset ≤ data → info.base ≠ 0 → (∀ n ∈ ns, 0 < n) →
      reallocSeq env data info ns = some (d, infoF) →
      d = data ∧ infoF.base = info.base) ∧
    (∀ (env : Env) (info : AllocInfo) (n p : Nat) (info2 : AllocInfo),
      info.base ≠ 0 → v_alloc_resize env info n = (some p, info2) →
      p = info.base ∧ info2.base = info.base) :=
  ⟨fun env data info ns d infoF hd hoff hb hpos h =>
      reallocSeq_stability env ns data info d infoF hd hoff hb hpos h,
   fun env info n p info2 hb h => resize_some_base env info n hb p info2 h⟩

/-- Witness for C1: an allocation created by `v_alloc_realloc(NULL, 64)` (data
pointer 65584, embedded base 65536) grows through sizes 128, 4000 and 9000;
every call returns the same data pointer and the base never moves. -/
theorem realloc_pointer_stability_witness :
    (65584 : Nat) = 65584 ∧
    (AllocInfo.mk 65536 77824 77824 1073741824 4096).base =
      (AllocInfo.mk 65536 69632 69632 1073741824 4096).base :=
  realloc_pointer_stability.1 env0 65584 ⟨65536, 69632, 69632, 1073741824, 4096⟩
    [128, 4000, 9000] 65584 ⟨65536, 77824, 77824, 1073741824, 4096⟩
    (by decide) (by decide) (by decide) (by decide) (by decide)

/-- A successful `v_alloc_committ` on a reserved descriptor returns the old
cursor, advances the cursor by the 16-aligned request, keeps `base` and
`page_size`, and keeps the cursor within the committed end. -/
theorem committ_step_spec (env : Env) (ai : AllocInfo) (n p : Nat) (ai2 : AllocInfo)
    (hb : ai.base ≠ 0) (hpe : ai.ptr ≤ ai.end_) (hp : 0 < ai.page_size)
    (h : v_alloc_committ env ai n = (some p, ai2)) :
    p = ai.ptr ∧ 0 < n ∧ ai2.ptr = ai.ptr + ALIGN_UP n V_ALLOC_ALIGNMENT ∧
    ai2.base = ai.base ∧ ai2.page_size = ai.page_size ∧ ai2.ptr ≤ ai2.end_ := by
  by_cases hn : n = 0
  · subst hn
    rw [committ_zero] at h
    exact absurd h (by simp)
  · by_cases hfast : ALIGN_UP n V_ALLOC_ALIGNMENT > ai.end_ - ai.ptr
    · rw [committ_grow_eq env ai n hn hb hfast] at h
      by_cases hover : ai.ptr + ALIGN_UP (ALIGN_UP n V_ALLOC_ALIGNMENT) ai.page_size >
          ai.base + ai.reserved_size
      · rw [committ_grow_out env ai _ hover] at h
        exact absurd h (by simp)
      · rw [committ_grow_ok env ai _ hover] at h
        injection h with h1 h2
        injection h1 with h1
        subst h2
        have hAA := le_ALIGN_UP (ALIGN_UP n V_ALLOC_ALIGNMENT) ai.page_size hp
        refine ⟨h1.symm, Nat.pos_of_ne_zero hn, rfl, rfl, rfl, ?_⟩
        show ai.ptr + ALIGN_UP n V_ALLOC_ALIGNMENT ≤
          ai.base + (ai.end_ - ai.base + ALIGN_UP (ALIGN_UP n V_ALLOC_ALIGNMENT) ai.page_size)
        omega
    · rw [committ_fast env ai n hn hfast] at h
      injection h with h1 h2
      injection h1 with h1
      subst h2
      refine ⟨h1.symm, Nat.pos_of_ne_zero hn, rfl, rfl, rfl, ?_⟩
      show ai.ptr + ALIGN_UP n V_ALLOC_ALIGNMENT ≤ ai.end_
      omega

/-- Specification of a successful `committSeq` run, by induction on the list
of requests: base and page size are stable, the cursor only advances and stays
below the committed end, every recorded range starts 16-aligned at or above
the initial cursor and ends at or below the final cursor, and the ranges are
chained in order. -/
theorem committSeq_spec (env : Env) (ns : List Nat) :
    ∀ (ai : AllocInfo) (ps : List (Nat × Nat)) (aiF : AllocInfo),
    ai.base ≠ 0 → ai.base ≤ ai.ptr → ai.ptr ≤ ai.end_ → 0 < ai.page_size →
    16 ∣ ai.ptr →
    committSeq env ai ns = some (ps, aiF) →
    aiF.base = ai.base ∧ ai.ptr ≤ aiF.ptr ∧ aiF.ptr ≤ aiF.end_ ∧
    (∀ r ∈ ps, 16 ∣ r.1 ∧ 0 < r.2 ∧ ai.ptr ≤ r.1 ∧ r.1 + r.2 ≤ aiF.ptr) ∧
    List.Pairwise (fun x y => x.1 + x.2 ≤ y.1) ps := by
  induction ns with
  | nil =>
    intro ai ps aiF hb h1 h2 hp hd h
    unfold committSeq at h
    injection h with h1'
    injection h1' with ha hb2
    subst ha
    subst hb2
    exact ⟨rfl, Nat.le_refl _, h2, by simp, List.Pairwise.nil⟩
  | cons n ns ih =>
    intro ai ps aiF hb h1 h2 hp hd h
    unfold committSeq at h
    split at h
    · exact Option.noConfusion h
    · rename_i p ai2 hc
      split at h
      · exact Option.noConfusion h
      · rename_i ps2 aiF2 hc2
        injection h with h'
        injection h' with hps haf
        obtain ⟨hpp, hn0, hptr2, hbase2, hpage2, hpe2⟩ :=
          committ_step_spec env ai n p ai2 hb h2 hp hc
        have hb2 : ai2.base ≠ 0 := by
          rw [hbase2]; exact hb
        have h12 : ai2.base ≤ ai2.ptr := by
          rw [hbase2, hptr2]
          exact le_trans h1 (Nat.le_add_right _ _)
        have hp2 : 0 < ai2.page_size := by
          rw [hpage2]; exact hp
        have hA16 : (16 : Nat) ∣ ALIGN_UP n V_ALLOC_ALIGNMENT :=
          ALIGN_UP_dvd n V_ALLOC_ALIGNMENT (by decide)
        have hApos : 0 < ALIGN_UP n V_ALLOC_ALIGNMENT :=
          ALIGN_UP_pos n V_ALLOC_ALIGNMENT (by decide) hn0
        have hd2 : 16 ∣ ai2.ptr := by
          rw [hptr2]
          exact Nat.dvd_add hd hA16
        obtain ⟨ihb, ihle, ihpe, ihall, ihpw⟩ :=
          ih ai2 ps2 aiF2 hb2 h12 hpe2 hp2 hd2 hc2
        subst haf
        subst hps
        refine ⟨by rw [ihb, hbase2], ?_, ihpe, ?_, ?_⟩
        · calc ai.ptr ≤ ai2.ptr := by rw [hptr2]; exact Nat.le_add_right _ _
          _ ≤ aiF2.ptr := ihle
        · intro r hr
          rcases List.mem_cons.mp hr with hr | hr
          · subst hr
            refine ⟨by rw [hpp]; exact hd, hApos, by rw [hpp], ?_⟩
            show p + ALIGN_UP n V_ALLOC_ALIGNMENT ≤ aiF2.ptr
            rw [hpp, ← hptr2]
            exact ihle
          · obtain ⟨d1, d2, d3, d4⟩ := ihall r hr
            refine ⟨d1, d2, ?_, d4⟩
            calc ai.ptr ≤ ai2.ptr := by rw [hptr2]; exact Nat.le_add_right _ _
            _ ≤ r.1 := d3
        · refine List.Pairwise.cons ?_ ihpw
          intro r hr
          obtain ⟨d1, d2, d3, d4⟩ := ihall r hr
          show p + ALIGN_UP n V_ALLOC_ALIGNMENT ≤ r.1
          rw [hpp, ← hptr2]
          exact d3

/-- C7: Bump monotonicity — within one arena (reserved descriptor, cursor
between `base` and `end`, positive page size, 16-aligned cursor), every
sequence of successful `v_alloc_committ` calls with no intervening reset
returns ranges `[p, p + ALIGN_UP n 16)` that are chained in increasing order,
pairwise non-overlapping, with strictly increasing 16-aligned start addresses,
and whose union lies within `[base, end)` as of the last call. -/
theorem bump_monotonicity (env : Env) (ai : AllocInfo) (ns : List Nat)
    (ps : List (Nat × Nat)) (aiF : AllocInfo)
    (hb : ai.base ≠ 0) (h1 : ai.base ≤ ai.ptr) (h2 : ai.ptr ≤ ai.end_)
    (hp : 0 < ai.page_size) (hd : 16 ∣ ai.ptr)
    (h : committSeq env ai ns = some (ps, aiF)) :
    aiF.base = ai.base ∧
    (∀ r ∈ ps, 16 ∣ r.1 ∧ 0 < r.2 ∧ ai.base ≤ r.1 ∧ r.1 + r.2 ≤ aiF.end_) ∧
    List.Pairwise (fun x y => x.1 + x.2 ≤ y.1) ps ∧
    List.Pairwise (fun x y => x.1 < y.1) ps := by
  obtain ⟨hbase, hle, hpe, hall, hpw⟩ := committSeq_spec env ns ai ps aiF hb h1 h2 hp hd h
  refine ⟨hbase, ?_, hpw, ?_⟩
  · intro r hr
    obtain ⟨d1, d2, d3, d4⟩ := hall r hr
    exact ⟨d1, d2, le_trans h1 d3, le_trans d4 hpe⟩
  · refine List.Pairwise.imp_of_mem ?_ hpw
    intro a b ha hb' hab
    have hpos := (hall a ha).2.1
    omega

/-- Witness for C7: three allocations (33, 100 and 5000 bytes) from a fresh
1 MiB arena at 65536 produce the chained, aligned, in-bounds ranges
`(65536, 48)`, `(65584, 112)`, `(65696, 5008)`. -/
theorem bump_monotonicity_witness :
    (AllocInfo.mk 65536 70704 77824 1048576 4096).base =
        (AllocInfo.mk 65536 65536 65536 1048576 4096).base ∧
    (∀ r ∈ [((65536 : Nat), (48 : Nat)), (65584, 112), (65696, 5008)],
      16 ∣ r.1 ∧ 0 < r.2 ∧ (AllocInfo.mk 65536 65536 65536 1048576 4096).base ≤ r.1 ∧
      r.1 + r.2 ≤ (AllocInfo.mk 65536 70704 77824 1048576 4096).end_) ∧
    List.Pairwise (fun x y => x.1 + x.2 ≤ y.1)
      [((65536 : Nat), (48 : Nat)), (65584, 112), (65696, 5008)] ∧
    List.Pairwise (fun x y => x.1 < y.1)
      [((65536 : Nat), (48 : Nat)), (65584, 112), (65696, 5008)] :=
  bump_monotonicity env0 ⟨65536, 65536, 65536, 1048576, 4096⟩ [33, 100, 5000]
    [(65536, 48), (65584, 112), (65696, 5008)] ⟨65536, 70704, 77824, 1048576, 4096⟩
    (by decide) (by decide) (by decide) (by decide) (by decide) (by decide)
